import Mathlib

/-!
Shallow embedding of the PSD text-update server (`psd-server.py`): the
Processor `process_psd_updates` and the Flask handler `update_psd_text`,
together with a model of the Python value and truthiness semantics the
handler relies on.  The external editor bridge (the `photoshop`
`Session`) and the OSS client are abstract parameters; the orchestration
logic itself is translated clause by clause from the source.
-/

namespace PsdServer

/-- JSON values as delivered by `request.get_json()`.  JSON numbers are
modelled as integers; no claim involves a non-integer number. -/
inductive JsonV where
  | null
  | bool (b : Bool)
  | num (n : Int)
  | str (s : String)
  | arr (xs : List JsonV)
  | obj (kvs : List (String × JsonV))

/-- Lookup of a key in a Python dict built from a JSON object (first
occurrence; dicts produced by JSON parsing have distinct keys). -/
def getKey : List (String × JsonV) → String → Option JsonV
  | [], _ => none
  | (k, v) :: rest, key => if k = key then some v else getKey rest key

/-- Python truthiness of a JSON value, as used by the handler check
`if not data`. -/
def pyTruthy : JsonV → Bool
  | JsonV.null => false
  | JsonV.bool b => b
  | JsonV.num n => decide (n ≠ 0)
  | JsonV.str s => decide (s ≠ "")
  | JsonV.arr xs => !xs.isEmpty
  | JsonV.obj kvs => !kvs.isEmpty

/-- Python type name of a JSON value, used in TypeError messages. -/
def pyTypeName : JsonV → String
  | JsonV.null => "NoneType"
  | JsonV.bool _ => "bool"
  | JsonV.num _ => "int"
  | JsonV.str _ => "str"
  | JsonV.arr _ => "list"
  | JsonV.obj _ => "dict"

/-- Single-quote character, written by code point to keep the source
free of quote literals. -/
def squote : Char := Char.ofNat 39

/-- Double-quote character, written by code point. -/
def dquote : Char := Char.ofNat 34

/-- Escape a backslash or the chosen quote character, as Python repr
does for printable strings (control-character escaping is not modelled;
no claim exercises it). -/
def pyEscape (q : Char) (s : String) : String :=
  s.foldl
    (fun acc c =>
      if c = Char.ofNat 92 then acc ++ String.singleton (Char.ofNat 92) ++ String.singleton (Char.ofNat 92)
      else if c = q then acc ++ String.singleton (Char.ofNat 92) ++ String.singleton c
      else acc ++ String.singleton c)
    ""

/-- Python repr of a string: single quotes, unless the string contains a
single quote and no double quote. -/
def pyReprStr (s : String) : String :=
  if s.contains squote ∧ ¬ s.contains dquote then
    String.singleton dquote ++ pyEscape dquote s ++ String.singleton dquote
  else
    String.singleton squote ++ pyEscape squote s ++ String.singleton squote

mutual

/-- Python repr of a JSON value (as used for values nested inside
containers and for non-string values under str()). -/
def pyRepr : JsonV → String
  | JsonV.null => "None"
  | JsonV.bool true => "True"
  | JsonV.bool false => "False"
  | JsonV.num n => toString n
  | JsonV.str s => pyReprStr s
  | JsonV.arr xs => "[" ++ pyReprList xs ++ "]"
  | JsonV.obj kvs => "\x7b" ++ pyReprObj kvs ++ "\x7d"

/-- Comma-separated reprs of the elements of a Python list. -/
def pyReprList : List JsonV → String
  | [] => ""
  | [x] => pyRepr x
  | x :: xs => pyRepr x ++ ", " ++ pyReprList xs

/-- Comma-separated key: value reprs of the items of a Python dict. -/
def pyReprObj : List (String × JsonV) → String
  | [] => ""
  | [(k, v)] => pyReprStr k ++ ": " ++ pyRepr v
  | (k, v) :: kvs => pyReprStr k ++ ": " ++ pyRepr v ++ ", " ++ pyReprObj kvs

end

/-- Python str() of a JSON value, as computed by an f-string such as
f-string interpolation of psd_id in the handler. -/
def pyStr : JsonV → String
  | JsonV.str s => s
  | v => pyRepr v

/-- Substring test: does the needle occur contiguously in the hay?
Models the Python `in` operator on strings. -/
def strContainsSub (hay needle : String) : Bool :=
  (List.range (hay.data.length + 1)).any
    (fun i => List.isPrefixOf needle.data (List.drop i hay.data))

/-- Python membership test `key in data` for a string key: dict keys,
list elements, substring of a string; a TypeError for the remaining
types, which the handler's top-level except turns into a 500. -/
def pyContains (j : JsonV) (key : String) : Except String Bool :=
  match j with
  | JsonV.obj kvs => Except.ok (getKey kvs key).isSome
  | JsonV.arr xs =>
      Except.ok (xs.any (fun x => match x with
        | JsonV.str s => decide (s = key)
        | _ => false))
  | JsonV.str s => Except.ok (strContainsSub s key)
  | other => Except.error ("argument of type " ++ pyTypeName other ++ " is not iterable")

/-- Python subscript `data[key]` for a string key: dict lookup raising
KeyError when absent, a TypeError on lists and strings (string
subscripts must be integers), and a not-subscriptable TypeError
otherwise. -/
def pyGetItem (j : JsonV) (key : String) : Except String JsonV :=
  match j with
  | JsonV.obj kvs =>
      match getKey kvs key with
      | some v => Except.ok v
      | none => Except.error (pyReprStr key)
  | JsonV.arr _ => Except.error "list indices must be integers or slices, not str"
  | JsonV.str _ => Except.error "string indices must be integers"
  | other => Except.error (pyTypeName other ++ " object is not subscriptable")

/-- Layer kinds exposed by the editor bridge; the processor only
compares a kind against TextLayer. -/
inductive LayerKind where
  | TextLayer
  | NormalLayer
  | SmartObjectLayer
deriving DecidableEq

/-- Abstract interface to the editor bridge (`photoshop` scripting
bridge).  `D` is the state of the open document, `L` a layer handle.
Each operation may raise, modelled as `Except String`; the processor
catches per-item exceptions from getByName, kind and setContents, while
openDoc and saveAs failures propagate. -/
structure Bridge (D L : Type) where
  openDoc : String → Except String D
  getByName : D → JsonV → Except String L
  kind : D → L → Except String LayerKind
  setContents : D → L → JsonV → Except String D
  saveAs : D → String → Nat → Except String D

/-- Events recorded by one request: bridge calls of the processor and
the disk and object-store operations of the handler. -/
inductive Ev where
  | procCall
  | openDoc (path : String)
  | evLookup (lid : JsonV)
  | evSetText (lid : JsonV)
  | saveJpg (path : String)
  | closeDoc
  | fsExists (path : String)
  | ossAuth
  | ossBucket
  | fsOpenRead (path : String)
  | ossPut (key : String)
  | fsRemove (path : String)

/-- Failure record appended to failed_layers: an optional layer id and
an error message, mirroring the dict literals in the source. -/
structure FailRec where
  layer_id : Option JsonV
  error : String

/-- Result of processing one update element: the document state, the
outcome (layer id appended to updated_layers, or a failure record
appended to failed_layers), and the bridge calls made. -/
structure ItemRes (D : Type) where
  doc : D
  outcome : Except FailRec JsonV
  tr : List Ev

/-- Validation test of source line 49: the element is rejected as
Invalid update format when it is not a dict or lacks the layer_id key
or lacks the text key. -/
def invalidFormat : JsonV → Bool
  | JsonV.obj kvs => (getKey kvs "layer_id").isNone || (getKey kvs "text").isNone
  | _ => true

/-- Body of the per-item try block (source lines 56 to 71): getByName,
kind test, text mutation; every exception raised by one of these bridge
calls becomes a failure record carrying this layer id. -/
def tryUpdateLayer {D L : Type} (B : Bridge D L) (d : D) (lid tx : JsonV) : ItemRes D :=
  match B.getByName d lid with
  | Except.error e => ⟨d, Except.error ⟨some lid, e⟩, [Ev.evLookup lid]⟩
  | Except.ok l =>
      match B.kind d l with
      | Except.error e => ⟨d, Except.error ⟨some lid, e⟩, [Ev.evLookup lid]⟩
      | Except.ok k =>
          if k = LayerKind.TextLayer then
            match B.setContents d l tx with
            | Except.error e =>
                ⟨d, Except.error ⟨some lid, e⟩, [Ev.evLookup lid, Ev.evSetText lid]⟩
            | Except.ok d2 =>
                ⟨d2, Except.ok lid, [Ev.evLookup lid, Ev.evSetText lid]⟩
          else ⟨d, Except.error ⟨some lid, "Not a text layer"⟩, [Ev.evLookup lid]⟩

/-- One iteration of the update loop (source lines 49 to 71): format
check of line 49, extraction of the two fields at lines 53 to 54, then
the try block. -/
def processItem {D L : Type} (B : Bridge D L) (d : D) (update : JsonV) : ItemRes D :=
  match update with
  | JsonV.obj kvs =>
      match getKey kvs "layer_id", getKey kvs "text" with
      | some lid, some tx => tryUpdateLayer B d lid tx
      | _, _ => ⟨d, Except.error ⟨none, "Invalid update format"⟩, []⟩
  | _ => ⟨d, Except.error ⟨none, "Invalid update format"⟩, []⟩

/-- Result of the whole update loop: final document state, the two
accumulated lists and the concatenated bridge calls. -/
structure LoopRes (D : Type) where
  doc : D
  updated : List JsonV
  failed : List FailRec
  tr : List Ev

/-- The update loop of the source, with the two accumulator lists
updated_layers and failed_layers threaded exactly as the appends at
source lines 50, 61, 63 and 68 do. -/
def processLoop {D L : Type} (B : Bridge D L) (d : D) (us : List JsonV)
    (updated : List JsonV) (failed : List FailRec) : LoopRes D :=
  match us with
  | [] => ⟨d, updated, failed, []⟩
  | u :: rest =>
      let r := processItem B d u
      match r.outcome with
      | Except.ok lid =>
          let t := processLoop B r.doc rest (updated ++ [lid]) failed
          ⟨t.doc, t.updated, t.failed, r.tr ++ t.tr⟩
      | Except.error fr =>
          let t := processLoop B r.doc rest updated (failed ++ [fr])
          ⟨t.doc, t.updated, t.failed, r.tr ++ t.tr⟩

/-- Per-element outcomes of the loop, in input order, used to state
order preservation of the two result lists. -/
def runItems {D L : Type} (B : Bridge D L) (d : D) : List JsonV → List (Except FailRec JsonV)
  | [] => []
  | u :: rest =>
      let r := processItem B d u
      r.outcome :: runItems B r.doc rest

/-- Ordered projection of the successful outcomes. -/
def collectOks : List (Except FailRec JsonV) → List JsonV
  | [] => []
  | Except.ok a :: t => a :: collectOks t
  | Except.error _ :: t => collectOks t

/-- Ordered projection of the failure records. -/
def collectErrs : List (Except FailRec JsonV) → List FailRec
  | [] => []
  | Except.ok _ :: t => collectErrs t
  | Except.error e :: t => e :: collectErrs t

/-- Local filesystem state: the set of existing file paths. -/
structure World where
  files : List String

/-- Creation of a file on disk (idempotent on the path). -/
def addFile (fs : List String) (p : String) : List String :=
  if p ∈ fs then fs else p :: fs

/-- Deletion of a file from disk. -/
def removeFile (fs : List String) (p : String) : List String :=
  fs.filter (fun q => q != p)

/-- Result of one processor invocation: disk state, the returned triple
or a propagated exception message, and the event trace. -/
structure ProcRes where
  world : World
  result : Except String (List JsonV × List FailRec × Bool)
  tr : List Ev

/-- Processor `process_psd_updates` (source lines 24 to 80): open the
document inside a Session, run the update loop, save a JPEG copy at
quality 5 iff updated_layers is non-empty, close the document, and
return the two lists together with bool(updated_layers).  Modelled from
the spec: the `photoshop` `Session` context manager is not under src/,
and per the spec its exit closes the still-open document even when an
exception (such as a saveAs failure) escapes the block, except when
opening the document itself failed, which propagates with nothing to
close. -/
def process_psd_updates {D L : Type} (B : Bridge D L) (w : World)
    (psd_path jpg_path : String) (text_updates : List JsonV) : ProcRes :=
  match B.openDoc psd_path with
  | Except.error e => ⟨w, Except.error e, []⟩
  | Except.ok d0 =>
      let r := processLoop B d0 text_updates [] []
      if r.updated.isEmpty then
        ⟨w, Except.ok (r.updated, r.failed, !r.updated.isEmpty),
          Ev.openDoc psd_path :: r.tr ++ [Ev.closeDoc]⟩
      else
        match B.saveAs r.doc jpg_path 5 with
        | Except.error e =>
            ⟨w, Except.error e, Ev.openDoc psd_path :: r.tr ++ [Ev.closeDoc]⟩
        | Except.ok _ =>
            ⟨⟨addFile w.files jpg_path⟩, Except.ok (r.updated, r.failed, !r.updated.isEmpty),
              Ev.openDoc psd_path :: r.tr ++ [Ev.saveJpg jpg_path, Ev.closeDoc]⟩

/-- Base directory holding the .psd inputs (source line 22). -/
def PSD_DIRECTORY : String := "C:\\Users\\Administrator\\photoshop-python-api"

/-- Windows path join for a relative second component, as os.path.join
behaves on the paths this server builds. -/
def osJoin (a b : String) : String := a ++ "\\" ++ b

/-- OSS configuration read from the environment at process start. -/
structure OssCfg where
  endpoint : String
  bucket : String
  keyId : String
  keySecret : String

/-- Abstract OSS client: uploading to a key may fail with an exception
message. -/
structure Oss where
  putObject : String → Except String Unit

/-- HTTP response: status code and JSON body. -/
structure HttpResp where
  status : Nat
  body : JsonV

/-- Result of one handler invocation: disk state, response, events. -/
structure HRes where
  world : World
  resp : HttpResp
  tr : List Ev

/-- JSON form of a failure record, as jsonify serialises the dict
literals of the source: the layer_id key is present only when the
record carries one. -/
def failRecToJson : FailRec → JsonV
  | ⟨none, e⟩ => JsonV.obj [("error", JsonV.str e)]
  | ⟨some lid, e⟩ => JsonV.obj [("layer_id", lid), ("error", JsonV.str e)]

/-- Body of the 400 response for a missing field (source line 88). -/
def missingBody : JsonV :=
  JsonV.obj [("error", JsonV.str "Missing psd_id or updates in request")]

/-- Body of the 400 response for a non-list updates value (line 91). -/
def notListBody : JsonV :=
  JsonV.obj [("error", JsonV.str "Updates must be a list of layer updates")]

/-- Generic error body, used by the 404 and every 500 response. -/
def errJson (e : String) : JsonV := JsonV.obj [("error", JsonV.str e)]

/-- Body of the 400 response when no layer was updated (lines 107 to
110). -/
def noLayersBody (f : List FailRec) : JsonV :=
  JsonV.obj [("error", JsonV.str "No layers were updated"),
             ("failed_layers", JsonV.arr (f.map failRecToJson))]

/-- Body of the 200 success response (lines 125 to 132). -/
def successBody (s : List JsonV) (f : List FailRec) (ossPath ossUrl : String) : JsonV :=
  JsonV.obj [("success", JsonV.bool true),
             ("message", JsonV.str "Text updated and file uploaded successfully"),
             ("updated_layers", JsonV.arr s),
             ("failed_layers", JsonV.arr (f.map failRecToJson)),
             ("oss_path", JsonV.str ossPath),
             ("oss_url", JsonV.str ossUrl)]

/-- Post-validation part of the handler (source lines 94 to 132): path
construction from the stringified psd_id, existence check, processor
call, OSS auth, bucket and upload, cleanup and the final responses.
The psd_id value reaches these lines only through f-string
interpolation, so the core takes its str() form. -/
def handlerCore {D L : Type} (B : Bridge D L) (cfg : OssCfg) (oss : Oss)
    (w : World) (pid : String) (us : List JsonV) : HRes :=
  let psd_path := osJoin PSD_DIRECTORY (pid ++ ".psd")
  let jpg_path := osJoin PSD_DIRECTORY (pid ++ "_output.jpg")
  if psd_path ∈ w.files then
    let pr := process_psd_updates B w psd_path jpg_path us
    let tr0 := Ev.fsExists psd_path :: Ev.procCall :: pr.tr
    match pr.result with
    | Except.error e => ⟨pr.world, ⟨500, errJson e⟩, tr0⟩
    | Except.ok (s, f, ok) =>
        if ok = false then
          ⟨pr.world, ⟨400, noLayersBody f⟩, tr0⟩
        else
          let oss_path := "psd-outputs/" ++ pid ++ "_output.jpg"
          let tr1 := tr0 ++ [Ev.ossAuth, Ev.ossBucket]
          if jpg_path ∈ pr.world.files then
            match oss.putObject oss_path with
            | Except.error e =>
                ⟨pr.world, ⟨500, errJson e⟩, tr1 ++ [Ev.fsOpenRead jpg_path]⟩
            | Except.ok _ =>
                let oss_url := "https://" ++ cfg.bucket ++ "."
                  ++ cfg.endpoint ++ "/" ++ oss_path
                ⟨⟨removeFile pr.world.files jpg_path⟩,
                  ⟨200, successBody s f oss_path oss_url⟩,
                  tr1 ++ [Ev.fsOpenRead jpg_path, Ev.ossPut oss_path, Ev.fsRemove jpg_path]⟩
          else
            ⟨pr.world, ⟨500, errJson ("No such file or directory: " ++ jpg_path)⟩, tr1⟩
  else ⟨w, ⟨404, errJson "PSD file not found"⟩, [Ev.fsExists psd_path]⟩

/-- Handler `update_psd_text` (source lines 82 to 135).  `data` is the
value returned by request.get_json, none when no JSON body was
supplied.  Every Except.error branch models a Python exception reaching
the top-level except, which answers 500 with the exception text. -/
def update_psd_text {D L : Type} (B : Bridge D L) (cfg : OssCfg) (oss : Oss)
    (w : World) (data : Option JsonV) : HRes :=
  match data with
  | none => ⟨w, ⟨400, missingBody⟩, []⟩
  | some j =>
      if pyTruthy j = false then ⟨w, ⟨400, missingBody⟩, []⟩
      else
        match pyContains j "psd_id" with
        | Except.error e => ⟨w, ⟨500, errJson e⟩, []⟩
        | Except.ok hasP =>
            if hasP = false then ⟨w, ⟨400, missingBody⟩, []⟩
            else
              match pyContains j "updates" with
              | Except.error e => ⟨w, ⟨500, errJson e⟩, []⟩
              | Except.ok hasU =>
                  if hasU = false then ⟨w, ⟨400, missingBody⟩, []⟩
                  else
                    match pyGetItem j "updates" with
                    | Except.error e => ⟨w, ⟨500, errJson e⟩, []⟩
                    | Except.ok updv =>
                        match updv with
                        | JsonV.arr us =>
                            match pyGetItem j "psd_id" with
                            | Except.error e => ⟨w, ⟨500, errJson e⟩, []⟩
                            | Except.ok pidv => handlerCore B cfg oss w (pyStr pidv) us
                        | _ => ⟨w, ⟨400, notListBody⟩, []⟩

/-- Concrete layer of the reference document used to instantiate the
abstract bridge in witnesses. -/
structure CLayer where
  name : String
  kind : LayerKind
  contents : String

/-- Reference document: two text layers and one non-text layer. -/
def docA : List CLayer :=
  [⟨"title", LayerKind.TextLayer, "old title"⟩,
   ⟨"test_layer_2", LayerKind.TextLayer, "old 2"⟩,
   ⟨"bg", LayerKind.NormalLayer, ""⟩]

/-- Concrete bridge over list-of-layer documents: name lookup by exact
match, text mutation by index, always-succeeding open and save. -/
def cB : Bridge (List CLayer) Nat where
  openDoc := fun _ => Except.ok docA
  getByName := fun d lid =>
    match lid with
    | JsonV.str s =>
        match d.findIdx? (fun l => l.name == s) with
        | some i => Except.ok i
        | none => Except.error ("Could not find the layer named " ++ s)
    | _ => Except.error "getByName requires a string name"
  kind := fun d i =>
    match d[i]? with
    | some l => Except.ok l.kind
    | none => Except.error "invalid layer handle"
  setContents := fun d i tx =>
    match d[i]? with
    | some l => Except.ok (d.set i ⟨l.name, l.kind, pyStr tx⟩)
    | none => Except.error "invalid layer handle"
  saveAs := fun d _ _ => Except.ok d

/-- Concrete bridge whose saveAs raises, exercising the export-failure
path. -/
def cBSaveFail : Bridge (List CLayer) Nat :=
  { cB with saveAs := fun _ _ _ => Except.error "could not save" }

/-- Concrete OSS configuration. -/
def cfg0 : OssCfg := ⟨"oss-cn-test.example.com", "mybucket", "k", "s"⟩

/-- OSS client whose uploads succeed. -/
def ossOk : Oss := ⟨fun _ => Except.ok ()⟩

/-- OSS client whose uploads raise. -/
def ossFail : Oss := ⟨fun _ => Except.error "upload failed"⟩

/-- Path of the input document for psd_id 1. -/
def psd1 : String := osJoin PSD_DIRECTORY "1.psd"

/-- Path of the output artifact for psd_id 1. -/
def jpg1 : String := osJoin PSD_DIRECTORY "1_output.jpg"

/-- Disk holding just the input document. -/
def w0 : World := ⟨[psd1]⟩

/-- Update that succeeds against the reference document. -/
def goodUpdate : JsonV :=
  JsonV.obj [("layer_id", JsonV.str "title"), ("text", JsonV.str "New")]

/-- Request body carrying one good update for psd_id 1. -/
def body1 : JsonV :=
  JsonV.obj [("psd_id", JsonV.str "1"), ("updates", JsonV.arr [goodUpdate])]

/-- Events that are layer operations of the update loop. -/
def layerEv : Ev → Bool
  | Ev.evLookup _ => true
  | Ev.evSetText _ => true
  | _ => false

/-- Events that are disk or network I/O. -/
def diskOrNetEv : Ev → Bool
  | Ev.saveJpg _ => true
  | Ev.fsExists _ => true
  | Ev.fsOpenRead _ => true
  | Ev.fsRemove _ => true
  | Ev.ossAuth => true
  | Ev.ossBucket => true
  | Ev.ossPut _ => true
  | _ => false

/-- Events that are object-store operations. -/
def isOssEv : Ev → Bool
  | Ev.ossAuth => true
  | Ev.ossBucket => true
  | Ev.ossPut _ => true
  | _ => false

lemma layerEv_not_io {e : Ev} (h : layerEv e = true) :
    diskOrNetEv e = false ∧ isOssEv e = false := by
  cases e <;> simp_all [layerEv, diskOrNetEv, isOssEv]

lemma item_eq_try {D L : Type} (B : Bridge D L) (d : D)
    (kvs : List (String × JsonV)) (lid tx : JsonV)
    (hL : getKey kvs "layer_id" = some lid) (hT : getKey kvs "text" = some tx) :
    processItem B d (JsonV.obj kvs) = tryUpdateLayer B d lid tx := by
  unfold processItem
  dsimp only
  rw [hL, hT]

lemma try_cases {D L : Type} (B : Bridge D L) (d : D) (lid tx : JsonV) :
    (∃ d2, tryUpdateLayer B d lid tx =
        ⟨d2, Except.ok lid, [Ev.evLookup lid, Ev.evSetText lid]⟩) ∨
    (∃ e, tryUpdateLayer B d lid tx = ⟨d, Except.error ⟨some lid, e⟩, [Ev.evLookup lid]⟩) ∨
    (∃ e, tryUpdateLayer B d lid tx =
        ⟨d, Except.error ⟨some lid, e⟩, [Ev.evLookup lid, Ev.evSetText lid]⟩) := by
  unfold tryUpdateLayer
  iterate 4 (all_goals try split)
  all_goals first
    | exact Or.inl ⟨_, rfl⟩
    | exact Or.inr (Or.inl ⟨_, rfl⟩)
    | exact Or.inr (Or.inr ⟨_, rfl⟩)

lemma item_invalid_eq {D L : Type} (B : Bridge D L) (d : D) (u : JsonV)
    (h : invalidFormat u = true) :
    processItem B d u = ⟨d, Except.error ⟨none, "Invalid update format"⟩, []⟩ := by
  unfold processItem
  unfold invalidFormat at h
  split
  next kvs =>
    cases hL : getKey kvs "layer_id" <;> cases hT : getKey kvs "text" <;>
      simp_all [Option.isNone]
  next => rfl

lemma valid_shape (u : JsonV) (h : invalidFormat u = false) :
    ∃ kvs lid tx, u = JsonV.obj kvs ∧
      getKey kvs "layer_id" = some lid ∧ getKey kvs "text" = some tx := by
  rcases u with _ | b | n | s | xs | kvs
  iterate 5 exact absurd h (by unfold invalidFormat; simp)
  unfold invalidFormat at h
  dsimp only at h
  rw [Bool.or_eq_false_iff] at h
  obtain ⟨h1, h2⟩ := h
  cases hL : getKey kvs "layer_id" with
  | none => rw [hL] at h1; simp at h1
  | some lid =>
      cases hT : getKey kvs "text" with
      | none => rw [hT] at h2; simp at h2
      | some tx => exact ⟨kvs, lid, tx, rfl, hL, hT⟩

lemma item_tr_layer {D L : Type} (B : Bridge D L) (d : D) (u : JsonV) :
    ∀ e ∈ (processItem B d u).tr, layerEv e = true := by
  intro e he
  by_cases hv : invalidFormat u = true
  · rw [item_invalid_eq B d u hv] at he
    simp at he
  · obtain ⟨kvs, lid, tx, rfl, hL, hT⟩ := valid_shape u (by simpa using hv)
    rw [item_eq_try B d kvs lid tx hL hT] at he
    rcases try_cases B d lid tx with ⟨d2, hq⟩ | ⟨e2, hq⟩ | ⟨e2, hq⟩ <;>
      rw [hq] at he <;> simp at he <;>
      rcases he with rfl | rfl <;> rfl

lemma loop_updated {D L : Type} (B : Bridge D L) (us : List JsonV) :
    ∀ d upd fld, (processLoop B d us upd fld).updated =
      upd ++ collectOks (runItems B d us) := by
  induction us with
  | nil => intro d upd fld; simp [processLoop, runItems, collectOks]
  | cons u rest ih =>
      intro d upd fld
      unfold processLoop runItems
      dsimp only
      cases h : (processItem B d u).outcome with
      | ok lid => dsimp only; rw [ih]; simp [collectOks]
      | error fr => dsimp only; rw [ih]; simp [collectOks]

lemma loop_failed {D L : Type} (B : Bridge D L) (us : List JsonV) :
    ∀ d upd fld, (processLoop B d us upd fld).failed =
      fld ++ collectErrs (runItems B d us) := by
  induction us with
  | nil => intro d upd fld; simp [processLoop, runItems, collectErrs]
  | cons u rest ih =>
      intro d upd fld
      unfold processLoop runItems
      dsimp only
      cases h : (processItem B d u).outcome with
      | ok lid => dsimp only; rw [ih]; simp [collectErrs]
      | error fr => dsimp only; rw [ih]; simp [collectErrs]

lemma runItems_length {D L : Type} (B : Bridge D L) (us : List JsonV) :
    ∀ d, (runItems B d us).length = us.length := by
  induction us with
  | nil => intro d; rfl
  | cons u rest ih => intro d; unfold runItems; simp [ih]

lemma collect_length (l : List (Except FailRec JsonV)) :
    (collectOks l).length + (collectErrs l).length = l.length := by
  induction l with
  | nil => rfl
  | cons x t ih => cases x <;> simp [collectOks, collectErrs] <;> omega

lemma loop_tr_layer {D L : Type} (B : Bridge D L) (us : List JsonV) :
    ∀ d upd fld e, e ∈ (processLoop B d us upd fld).tr → layerEv e = true := by
  induction us with
  | nil => intro d upd fld e he; simp [processLoop] at he
  | cons u rest ih =>
      intro d upd fld e he
      unfold processLoop at he
      dsimp only at he
      cases h : (processItem B d u).outcome with
      | ok lid =>
          rw [h] at he
          dsimp only at he
          rcases List.mem_append.mp he with h1 | h2
          · exact item_tr_layer B d u e h1
          · exact ih _ _ _ e h2
      | error fr =>
          rw [h] at he
          dsimp only at he
          rcases List.mem_append.mp he with h1 | h2
          · exact item_tr_layer B d u e h1
          · exact ih _ _ _ e h2

lemma mem_proc_tr {D L : Type} (B : Bridge D L) (w : World)
    (p jp : String) (us : List JsonV) :
    ∀ e ∈ (process_psd_updates B w p jp us).tr,
      e = Ev.openDoc p ∨ e = Ev.closeDoc ∨ e = Ev.saveJpg jp ∨ layerEv e = true := by
  intro e he
  unfold process_psd_updates at he
  split at he
  · simp at he
  · dsimp only at he
    split at he
    · simp at he
      rcases he with rfl | he | rfl
      · exact Or.inl rfl
      · exact Or.inr (Or.inr (Or.inr (loop_tr_layer B us _ _ _ e he)))
      · exact Or.inr (Or.inl rfl)
    · split at he
      · simp at he
        rcases he with rfl | he | rfl
        · exact Or.inl rfl
        · exact Or.inr (Or.inr (Or.inr (loop_tr_layer B us _ _ _ e he)))
        · exact Or.inr (Or.inl rfl)
      · simp at he
        rcases he with rfl | he | rfl | rfl
        · exact Or.inl rfl
        · exact Or.inr (Or.inr (Or.inr (loop_tr_layer B us _ _ _ e he)))
        · exact Or.inr (Or.inr (Or.inl rfl))
        · exact Or.inr (Or.inl rfl)

lemma runItems_cons {D L : Type} (B : Bridge D L) (d : D) (u : JsonV)
    (rest : List JsonV) :
    runItems B d (u :: rest) =
      (processItem B d u).outcome :: runItems B (processItem B d u).doc rest := rfl

lemma proc_cases {D L : Type} (B : Bridge D L) (w : World) (p jp : String)
    (us : List JsonV) :
    (∃ e, B.openDoc p = Except.error e ∧
      process_psd_updates B w p jp us = ⟨w, Except.error e, []⟩) ∨
    (∃ d0, B.openDoc p = Except.ok d0 ∧
      (((processLoop B d0 us [] []).updated.isEmpty = true ∧
        process_psd_updates B w p jp us =
          ⟨w, Except.ok ((processLoop B d0 us [] []).updated,
                (processLoop B d0 us [] []).failed, false),
            Ev.openDoc p :: (processLoop B d0 us [] []).tr ++ [Ev.closeDoc]⟩) ∨
      ((processLoop B d0 us [] []).updated.isEmpty = false ∧
        ((∃ e, B.saveAs (processLoop B d0 us [] []).doc jp 5 = Except.error e ∧
            process_psd_updates B w p jp us =
              ⟨w, Except.error e,
                Ev.openDoc p :: (processLoop B d0 us [] []).tr ++ [Ev.closeDoc]⟩) ∨
         (∃ d1, B.saveAs (processLoop B d0 us [] []).doc jp 5 = Except.ok d1 ∧
            process_psd_updates B w p jp us =
              ⟨⟨addFile w.files jp⟩,
                Except.ok ((processLoop B d0 us [] []).updated,
                  (processLoop B d0 us [] []).failed, true),
                Ev.openDoc p :: (processLoop B d0 us [] []).tr
                  ++ [Ev.saveJpg jp, Ev.closeDoc]⟩))))) := by
  cases ho : B.openDoc p with
  | error e =>
      refine Or.inl ⟨e, rfl, ?_⟩
      unfold process_psd_updates
      rw [ho]
  | ok d0 =>
      refine Or.inr ⟨d0, rfl, ?_⟩
      cases hie : (processLoop B d0 us [] []).updated.isEmpty with
      | true =>
          refine Or.inl ⟨rfl, ?_⟩
          unfold process_psd_updates
          rw [ho]
          dsimp only
          simp [hie]
      | false =>
          refine Or.inr ⟨rfl, ?_⟩
          cases hs : B.saveAs (processLoop B d0 us [] []).doc jp 5 with
          | error e =>
              refine Or.inl ⟨e, rfl, ?_⟩
              unfold process_psd_updates
              rw [ho]
              dsimp only
              simp only [hie, Bool.false_eq_true, if_false]
              rw [hs]
          | ok d1 =>
              refine Or.inr ⟨d1, rfl, ?_⟩
              unfold process_psd_updates
              rw [ho]
              dsimp only
              simp only [hie, Bool.false_eq_true, if_false]
              rw [hs]
              simp

lemma tr_no_io {D L : Type} (B : Bridge D L) (d0 : D) (us : List JsonV) (p : String) :
    ∀ e ∈ Ev.openDoc p :: (processLoop B d0 us [] []).tr ++ [Ev.closeDoc],
      diskOrNetEv e = false := by
  intro e he
  simp at he
  rcases he with rfl | he | rfl
  · rfl
  · exact (layerEv_not_io (loop_tr_layer B us d0 [] [] e he)).1
  · rfl

lemma tr_io_only_save {D L : Type} (B : Bridge D L) (d0 : D) (us : List JsonV)
    (p jp : String) :
    ∀ e ∈ Ev.openDoc p :: (processLoop B d0 us [] []).tr
        ++ [Ev.saveJpg jp, Ev.closeDoc],
      diskOrNetEv e = true → e = Ev.saveJpg jp := by
  intro e he hio
  simp at he
  rcases he with rfl | he | rfl | rfl
  · exact absurd hio (by simp [diskOrNetEv])
  · rw [(layerEv_not_io (loop_tr_layer B us d0 [] [] e he)).1] at hio
    exact absurd hio (by simp)
  · rfl
  · exact absurd hio (by simp [diskOrNetEv])

lemma saveJpg_not_mem_close_tr {D L : Type} (B : Bridge D L) (d0 : D)
    (us : List JsonV) (p jp : String) :
    Ev.saveJpg jp ∉ Ev.openDoc p :: (processLoop B d0 us [] []).tr ++ [Ev.closeDoc] := by
  intro hm
  have := tr_no_io B d0 us p _ hm
  simp [diskOrNetEv] at this

lemma proc_ok_shape {D L : Type} (B : Bridge D L) (w : World) (p jp : String)
    (us : List JsonV) (s : List JsonV) (f : List FailRec) (b : Bool)
    (h : (process_psd_updates B w p jp us).result = Except.ok (s, f, b)) :
    ∃ d0, B.openDoc p = Except.ok d0 ∧
      s = (processLoop B d0 us [] []).updated ∧
      f = (processLoop B d0 us [] []).failed := by
  rcases proc_cases B w p jp us with ⟨e, _, hq⟩ | ⟨d0, ho, hrest⟩
  · rw [hq] at h
    simp at h
  · rcases hrest with ⟨_, hq⟩ | ⟨_, ⟨e, _, hq⟩ | ⟨d1, _, hq⟩⟩ <;> rw [hq] at h <;>
      simp at h
    · exact ⟨d0, ho, h.1.symm, h.2.1.symm⟩
    · exact ⟨d0, ho, h.1.symm, h.2.1.symm⟩

/-- C2: on every normal return of process_psd_updates there is exactly
one outcome per input element, in input order: the succeeded list is
the ordered projection of the per-item successes, the failed list the
ordered projection of the per-item failure records, and the two lengths
sum to the number of updates, so no per-item error aborts processing of
the remaining updates. -/
theorem processor_outcomes_ordered_total {D L : Type} (B : Bridge D L) (w : World)
    (p jp : String) (us : List JsonV) (s : List JsonV) (f : List FailRec) (b : Bool)
    (h : (process_psd_updates B w p jp us).result = Except.ok (s, f, b)) :
    ∃ d0, B.openDoc p = Except.ok d0 ∧
      (runItems B d0 us).length = us.length ∧
      s = collectOks (runItems B d0 us) ∧
      f = collectErrs (runItems B d0 us) ∧
      s.length + f.length = us.length := by
  obtain ⟨d0, ho, hs, hf⟩ := proc_ok_shape B w p jp us s f b h
  refine ⟨d0, ho, runItems_length B us d0, ?_, ?_, ?_⟩
  · rw [hs, loop_updated]
    simp
  · rw [hf, loop_failed]
    simp
  · rw [hs, hf, loop_updated, loop_failed]
    simp only [List.nil_append]
    rw [collect_length]
    exact runItems_length B us d0

/-- Witness for C2 at a concrete run with an empty update list. -/
theorem processor_outcomes_ordered_total_witness :
    ∃ d0, cB.openDoc psd1 = Except.ok d0 ∧
      (runItems cB d0 ([] : List JsonV)).length = ([] : List JsonV).length ∧
      ([] : List JsonV) = collectOks (runItems cB d0 ([] : List JsonV)) ∧
      ([] : List FailRec) = collectErrs (runItems cB d0 ([] : List JsonV)) ∧
      ([] : List JsonV).length + ([] : List FailRec).length = ([] : List JsonV).length :=
  processor_outcomes_ordered_total cB w0 psd1 jpg1 [] [] [] false rfl

/-- C5: on every execution of process_psd_updates in which the document
was successfully opened, the trace ends with the close of the document,
also when per-item errors occurred or the JPEG export raised; the
session close on the exception path is modelled from the spec, since the
photoshop Session context manager is not part of src. -/
theorem document_closed_on_exit {D L : Type} (B : Bridge D L) (w : World)
    (p jp : String) (us : List JsonV)
    (h : Ev.openDoc p ∈ (process_psd_updates B w p jp us).tr) :
    ∃ t, (process_psd_updates B w p jp us).tr = t ++ [Ev.closeDoc] := by
  rcases proc_cases B w p jp us with ⟨e, _, hq⟩ | ⟨d0, ho, hrest⟩
  · rw [hq] at h
    simp at h
  · rcases hrest with ⟨_, hq⟩ | ⟨_, ⟨e, _, hq⟩ | ⟨d1, _, hq⟩⟩
    · rw [hq]
      exact ⟨Ev.openDoc p :: (processLoop B d0 us [] []).tr, by simp⟩
    · rw [hq]
      exact ⟨Ev.openDoc p :: (processLoop B d0 us [] []).tr, by simp⟩
    · rw [hq]
      exact ⟨Ev.openDoc p :: (processLoop B d0 us [] []).tr ++ [Ev.saveJpg jp], by simp⟩

/-- Witness for C5 at a concrete run whose trace is open followed by
close. -/
theorem document_closed_on_exit_witness :
    ∃ t, (process_psd_updates cB w0 psd1 jpg1 []).tr = t ++ [Ev.closeDoc] :=
  document_closed_on_exit cB w0 psd1 jpg1 [] (List.mem_cons_self _ _)

/-- C7: an update entry that is not a mapping, or misses the layer_id
key or the text key, always produces the failure record with error
Invalid update format and no layer id, leaves the document untouched,
performs no bridge call, and is never placed in succeeded: in the loop
it leaves updated_layers exactly as the remaining updates do and adds
its record to failed_layers. -/
theorem invalid_update_always_failed {D L : Type} (B : Bridge D L) (d : D) (u : JsonV)
    (h : invalidFormat u = true) :
    processItem B d u = ⟨d, Except.error ⟨none, "Invalid update format"⟩, []⟩ ∧
    ∀ rest upd fld,
      (processLoop B d (u :: rest) upd fld).updated =
        (processLoop B d rest upd fld).updated ∧
      (processLoop B d (u :: rest) upd fld).failed =
        fld ++ ⟨none, "Invalid update format"⟩ :: collectErrs (runItems B d rest) := by
  refine ⟨item_invalid_eq B d u h, ?_⟩
  intro rest upd fld
  constructor
  · rw [loop_updated, loop_updated, runItems_cons, item_invalid_eq B d u h]
    dsimp only
    simp [collectOks]
  · rw [loop_failed, runItems_cons, item_invalid_eq B d u h]
    dsimp only
    simp [collectErrs]

/-- Witness for C7 at the concrete non-mapping entry 3. -/
theorem invalid_update_always_failed_witness :
    processItem cB docA (JsonV.num 3) =
      ⟨docA, Except.error ⟨none, "Invalid update format"⟩, []⟩ :=
  (invalid_update_always_failed cB docA (JsonV.num 3) rfl).1

/-- Counterexample to C6: the mapping holding only a layer_id key (the
layer_id of an existing text layer) is rejected as Invalid update
format with no bridge call, although the claim says an element with at
least one of the two keys proceeds to the layer lookup step. -/
theorem single_key_update_rejected_cex :
    (processItem cB docA (JsonV.obj [("layer_id", JsonV.str "title")])).outcome =
        Except.error ⟨none, "Invalid update format"⟩ ∧
    (processItem cB docA (JsonV.obj [("layer_id", JsonV.str "title")])).tr = [] ∧
    (getKey [("layer_id", JsonV.str "title")] "layer_id").isSome = true := by
  exact ⟨rfl, rfl, rfl⟩

/-- C6 amended: an update element is rejected with the failure record
Invalid update format (no layer_id recorded) exactly when it is not a
mapping or lacks at least one of the layer_id and text keys; every
element that is a mapping containing both keys instead reaches the
layer lookup step. -/
theorem invalid_format_iff_missing_key {D L : Type} (B : Bridge D L) (d : D) (u : JsonV) :
    ((processItem B d u).outcome = Except.error ⟨none, "Invalid update format"⟩ ↔
      invalidFormat u = true) ∧
    (∀ kvs lid tx, u = JsonV.obj kvs → getKey kvs "layer_id" = some lid →
      getKey kvs "text" = some tx → Ev.evLookup lid ∈ (processItem B d u).tr) := by
  constructor
  · constructor
    · intro h
      by_contra hn
      obtain ⟨kvs, lid, tx, rfl, hL, hT⟩ := valid_shape u (by simpa using hn)
      rw [item_eq_try B d kvs lid tx hL hT] at h
      rcases try_cases B d lid tx with ⟨d2, hq⟩ | ⟨e2, hq⟩ | ⟨e2, hq⟩ <;>
        rw [hq] at h <;> simp at h
    · intro h
      rw [item_invalid_eq B d u h]
  · intro kvs lid tx hu hL hT
    subst hu
    rw [item_eq_try B d kvs lid tx hL hT]
    rcases try_cases B d lid tx with ⟨d2, hq⟩ | ⟨e2, hq⟩ | ⟨e2, hq⟩ <;>
      rw [hq] <;> simp

/-- Witness for C6 amended: a mapping with both keys reaches the lookup
step on the concrete bridge. -/
theorem invalid_format_iff_missing_key_witness :
    Ev.evLookup (JsonV.str "title") ∈ (processItem cB docA goodUpdate).tr :=
  (invalid_format_iff_missing_key cB docA goodUpdate).2
    [("layer_id", JsonV.str "title"), ("text", JsonV.str "New")]
    (JsonV.str "title") (JsonV.str "New") rfl rfl rfl

/-- C8: an update whose layer_id names an existing layer whose kind is
not a text layer yields exactly the failure record with error Not a
text layer carrying that layer_id, leaves the document state unchanged
(no mutation), performs no setContents call, and is not placed in
succeeded. -/
theorem non_text_layer_failed {D L : Type} (B : Bridge D L) (d : D)
    (kvs : List (String × JsonV)) (lid tx : JsonV) (l : L) (k : LayerKind)
    (hL : getKey kvs "layer_id" = some lid) (hT : getKey kvs "text" = some tx)
    (hg : B.getByName d lid = Except.ok l) (hk : B.kind d l = Except.ok k)
    (hnt : ¬ k = LayerKind.TextLayer) :
    processItem B d (JsonV.obj kvs) =
      ⟨d, Except.error ⟨some lid, "Not a text layer"⟩, [Ev.evLookup lid]⟩ := by
  rw [item_eq_try B d kvs lid tx hL hT]
  unfold tryUpdateLayer
  rw [hg]
  dsimp only
  rw [hk]
  dsimp only
  rw [if_neg hnt]

/-- Witness for C8 at the concrete non-text layer bg. -/
theorem non_text_layer_failed_witness :
    processItem cB docA (JsonV.obj [("layer_id", JsonV.str "bg"), ("text", JsonV.str "x")]) =
      ⟨docA, Except.error ⟨some (JsonV.str "bg"), "Not a text layer"⟩,
        [Ev.evLookup (JsonV.str "bg")]⟩ :=
  non_text_layer_failed cB docA [("layer_id", JsonV.str "bg"), ("text", JsonV.str "x")]
    (JsonV.str "bg") (JsonV.str "x") 2 LayerKind.NormalLayer rfl rfl rfl rfl
    (by decide)

/-- C1: the JPEG artifact is written to the output path iff the
invocation returns a non-empty succeeded list; writing the artifact is
the only disk or network I/O the Processor ever performs, and whenever
no update succeeded (empty succeeded list, or an exception outcome) the
disk is left unchanged and, on the normal no-success return, no disk or
network I/O happened at all. -/
theorem jpeg_written_iff_any_success {D L : Type} (B : Bridge D L) (w : World)
    (p jp : String) (us : List JsonV) :
    (Ev.saveJpg jp ∈ (process_psd_updates B w p jp us).tr ↔
      ∃ s f b, (process_psd_updates B w p jp us).result = Except.ok (s, f, b) ∧ s ≠ []) ∧
    (∀ e ∈ (process_psd_updates B w p jp us).tr,
      diskOrNetEv e = true → e = Ev.saveJpg jp) ∧
    (∀ s f b, (process_psd_updates B w p jp us).result = Except.ok (s, f, b) → s = [] →
      (process_psd_updates B w p jp us).world = w ∧
      ∀ e ∈ (process_psd_updates B w p jp us).tr, diskOrNetEv e = false) ∧
    (∀ e2, (process_psd_updates B w p jp us).result = Except.error e2 →
      (process_psd_updates B w p jp us).world = w) := by
  rcases proc_cases B w p jp us with ⟨e0, _, hq⟩ | ⟨d0, ho, hrest⟩
  · rw [hq]
    refine ⟨?_, ?_, ?_, ?_⟩
    · simp
    · intro e he
      simp at he
    · intro s f b hr
      simp at hr
    · intro e2 _
      rfl
  · rcases hrest with ⟨hie, hq⟩ | ⟨hie, ⟨e0, hsv, hq⟩ | ⟨d1, hsv, hq⟩⟩
    · rw [hq]
      refine ⟨?_, ?_, ?_, ?_⟩
      · constructor
        · intro hm
          exact absurd hm (saveJpg_not_mem_close_tr B d0 us p jp)
        · rintro ⟨s, f, b, hr, hne⟩
          simp at hr
          exact absurd (List.isEmpty_iff.mp hie) (hr.1 ▸ hne)
      · intro e he hio
        rw [tr_no_io B d0 us p e he] at hio
        exact absurd hio (by simp)
      · intro s f b _ _
        exact ⟨rfl, tr_no_io B d0 us p⟩
      · intro e2 hr
        simp at hr
    · rw [hq]
      refine ⟨?_, ?_, ?_, ?_⟩
      · constructor
        · intro hm
          exact absurd hm (saveJpg_not_mem_close_tr B d0 us p jp)
        · rintro ⟨s, f, b, hr, hne⟩
          simp at hr
      · intro e he hio
        rw [tr_no_io B d0 us p e he] at hio
        exact absurd hio (by simp)
      · intro s f b hr
        simp at hr
      · intro e2 _
        rfl
    · rw [hq]
      refine ⟨?_, ?_, ?_, ?_⟩
      · constructor
        · intro _
          exact ⟨(processLoop B d0 us [] []).updated, (processLoop B d0 us [] []).failed,
            true, rfl, by simpa [List.isEmpty_iff] using hie⟩
        · intro _
          simp
      · exact tr_io_only_save B d0 us p jp
      · intro s f b hr hs
        simp at hr
        exact absurd (List.isEmpty_iff.mpr (hr.1 ▸ hs)) (by rw [hie]; simp)
      · intro e2 hr
        simp at hr

/-- Witness for C1 at a concrete run whose updates all fail, checking
the unchanged-disk and no-I/O conclusions. -/
theorem jpeg_written_iff_any_success_witness :
    (process_psd_updates cB w0 psd1 jpg1 []).world = w0 ∧
    ∀ e ∈ (process_psd_updates cB w0 psd1 jpg1 []).tr, diskOrNetEv e = false :=
  (jpeg_written_iff_any_success cB w0 psd1 jpg1 []).2.2.1 [] [] false rfl rfl

lemma proc_tr_no_oss {D L : Type} (B : Bridge D L) (w : World) (p jp : String)
    (us : List JsonV) :
    ∀ e ∈ (process_psd_updates B w p jp us).tr, isOssEv e = false := by
  intro e he
  rcases mem_proc_tr B w p jp us e he with rfl | rfl | rfl | hl
  · rfl
  · rfl
  · rfl
  · exact (layerEv_not_io hl).2

lemma proc_tr_saveJpg {D L : Type} (B : Bridge D L) (w : World) (p jp : String)
    (us : List JsonV) (q : String)
    (h : Ev.saveJpg q ∈ (process_psd_updates B w p jp us).tr) : q = jp := by
  rcases mem_proc_tr B w p jp us _ h with h1 | h1 | h1 | h1
  · simp at h1
  · simp at h1
  · injection h1
  · simp [layerEv] at h1

lemma handler_obj_core {D L : Type} (B : Bridge D L) (cfg : OssCfg) (oss : Oss)
    (w : World) (kvs : List (String × JsonV)) (pv : JsonV) (us : List JsonV)
    (hp : getKey kvs "psd_id" = some pv)
    (hu : getKey kvs "updates" = some (JsonV.arr us)) :
    update_psd_text B cfg oss w (some (JsonV.obj kvs)) =
      handlerCore B cfg oss w (pyStr pv) us := by
  have ht : pyTruthy (JsonV.obj kvs) = true := by
    cases kvs with
    | nil => simp [getKey] at hp
    | cons a t => rfl
  simp [update_psd_text, ht, pyContains, pyGetItem, hp, hu]

lemma core_404 {D L : Type} (B : Bridge D L) (cfg : OssCfg) (oss : Oss)
    (w : World) (pid : String) (us : List JsonV)
    (h : osJoin PSD_DIRECTORY (pid ++ ".psd") ∉ w.files) :
    handlerCore B cfg oss w pid us =
      ⟨w, ⟨404, errJson "PSD file not found"⟩,
        [Ev.fsExists (osJoin PSD_DIRECTORY (pid ++ ".psd"))]⟩ := by
  unfold handlerCore
  dsimp only
  rw [if_neg h]

lemma core_no_success {D L : Type} (B : Bridge D L) (cfg : OssCfg) (oss : Oss)
    (w : World) (pid : String) (us : List JsonV) (s : List JsonV) (f : List FailRec)
    (hex : osJoin PSD_DIRECTORY (pid ++ ".psd") ∈ w.files)
    (hr : (process_psd_updates B w (osJoin PSD_DIRECTORY (pid ++ ".psd"))
            (osJoin PSD_DIRECTORY (pid ++ "_output.jpg")) us).result =
          Except.ok (s, f, false)) :
    handlerCore B cfg oss w pid us =
      ⟨(process_psd_updates B w (osJoin PSD_DIRECTORY (pid ++ ".psd"))
          (osJoin PSD_DIRECTORY (pid ++ "_output.jpg")) us).world,
        ⟨400, noLayersBody f⟩,
        Ev.fsExists (osJoin PSD_DIRECTORY (pid ++ ".psd")) :: Ev.procCall ::
          (process_psd_updates B w (osJoin PSD_DIRECTORY (pid ++ ".psd"))
            (osJoin PSD_DIRECTORY (pid ++ "_output.jpg")) us).tr⟩ := by
  unfold handlerCore
  dsimp only
  rw [if_pos hex, hr]
  simp

lemma core_fsExists {D L : Type} (B : Bridge D L) (cfg : OssCfg) (oss : Oss)
    (w : World) (pid : String) (us : List JsonV) :
    Ev.fsExists (osJoin PSD_DIRECTORY (pid ++ ".psd")) ∈
      (handlerCore B cfg oss w pid us).tr := by
  unfold handlerCore
  dsimp only
  iterate 6 (all_goals try split)
  all_goals simp

/-- C3: whenever the processor reports that no layer was updated, the
handler answers 400 with the error No layers were updated and the
collected failure records, and the trace holds no object-store
operation: no authentication, no bucket construction, no upload. -/
theorem no_oss_when_no_success {D L : Type} (B : Bridge D L) (cfg : OssCfg) (oss : Oss)
    (w : World) (pv : JsonV) (us : List JsonV) (s : List JsonV) (f : List FailRec)
    (hex : osJoin PSD_DIRECTORY (pyStr pv ++ ".psd") ∈ w.files)
    (hr : (process_psd_updates B w (osJoin PSD_DIRECTORY (pyStr pv ++ ".psd"))
            (osJoin PSD_DIRECTORY (pyStr pv ++ "_output.jpg")) us).result =
          Except.ok (s, f, false)) :
    update_psd_text B cfg oss w
        (some (JsonV.obj [("psd_id", pv), ("updates", JsonV.arr us)])) =
      ⟨(process_psd_updates B w (osJoin PSD_DIRECTORY (pyStr pv ++ ".psd"))
          (osJoin PSD_DIRECTORY (pyStr pv ++ "_output.jpg")) us).world,
        ⟨400, noLayersBody f⟩,
        Ev.fsExists (osJoin PSD_DIRECTORY (pyStr pv ++ ".psd")) :: Ev.procCall ::
          (process_psd_updates B w (osJoin PSD_DIRECTORY (pyStr pv ++ ".psd"))
            (osJoin PSD_DIRECTORY (pyStr pv ++ "_output.jpg")) us).tr⟩ ∧
    ∀ e ∈ (update_psd_text B cfg oss w
        (some (JsonV.obj [("psd_id", pv), ("updates", JsonV.arr us)]))).tr,
      isOssEv e = false := by
  have h1 := handler_obj_core B cfg oss w [("psd_id", pv), ("updates", JsonV.arr us)]
    pv us (by simp [getKey]) (by simp [getKey])
  rw [h1, core_no_success B cfg oss w (pyStr pv) us s f hex hr]
  refine ⟨rfl, ?_⟩
  intro e he
  simp at he
  rcases he with rfl | rfl | he
  · rfl
  · rfl
  · exact proc_tr_no_oss B w _ _ us e he

/-- Witness for C3 at a concrete run with an empty update list, whose
processor outcome reports no success. -/
theorem no_oss_when_no_success_witness :
    update_psd_text cB cfg0 ossOk w0
        (some (JsonV.obj [("psd_id", JsonV.str "1"), ("updates", JsonV.arr [])])) =
      ⟨(process_psd_updates cB w0 (osJoin PSD_DIRECTORY (pyStr (JsonV.str "1") ++ ".psd"))
          (osJoin PSD_DIRECTORY (pyStr (JsonV.str "1") ++ "_output.jpg")) []).world,
        ⟨400, noLayersBody []⟩,
        Ev.fsExists (osJoin PSD_DIRECTORY (pyStr (JsonV.str "1") ++ ".psd")) :: Ev.procCall ::
          (process_psd_updates cB w0 (osJoin PSD_DIRECTORY (pyStr (JsonV.str "1") ++ ".psd"))
            (osJoin PSD_DIRECTORY (pyStr (JsonV.str "1") ++ "_output.jpg")) []).tr⟩ :=
  (no_oss_when_no_success cB cfg0 ossOk w0 (JsonV.str "1") [] [] []
    (by decide) rfl).1

/-- C10: the handler performs no type check on psd_id: any JSON value
under the psd_id key passes validation, the whole request outcome
factors through the str() form of that value (so the paths, the
object-store key and the URL are built from it), the existence check is
performed on the path built from the str() form, and the number 1
behaves exactly like the string form of 1. -/
theorem psd_id_untyped_stringified {D L : Type} (B : Bridge D L) (cfg : OssCfg)
    (oss : Oss) (w : World) (pv : JsonV) (us : List JsonV) :
    update_psd_text B cfg oss w
        (some (JsonV.obj [("psd_id", pv), ("updates", JsonV.arr us)])) =
      handlerCore B cfg oss w (pyStr pv) us ∧
    update_psd_text B cfg oss w
        (some (JsonV.obj [("psd_id", pv), ("updates", JsonV.arr us)])) =
      update_psd_text B cfg oss w
        (some (JsonV.obj [("psd_id", JsonV.str (pyStr pv)), ("updates", JsonV.arr us)])) ∧
    Ev.fsExists (osJoin PSD_DIRECTORY (pyStr pv ++ ".psd")) ∈
      (update_psd_text B cfg oss w
        (some (JsonV.obj [("psd_id", pv), ("updates", JsonV.arr us)]))).tr ∧
    pyStr (JsonV.num 1) = "1" ∧ pyStr (JsonV.str "1") = "1" := by
  have h1 := handler_obj_core B cfg oss w [("psd_id", pv), ("updates", JsonV.arr us)]
    pv us (by simp [getKey]) (by simp [getKey])
  have h2 := handler_obj_core B cfg oss w
    [("psd_id", JsonV.str (pyStr pv)), ("updates", JsonV.arr us)]
    (JsonV.str (pyStr pv)) us (by simp [getKey]) (by simp [getKey])
  refine ⟨h1, ?_, ?_, rfl, rfl⟩
  · rw [h1, h2]
    rfl
  · rw [h1]
    exact core_fsExists B cfg oss w (pyStr pv) us

lemma handler_none {D L : Type} (B : Bridge D L) (cfg : OssCfg) (oss : Oss)
    (w : World) :
    update_psd_text B cfg oss w none = ⟨w, ⟨400, missingBody⟩, []⟩ := rfl

lemma handler_falsy {D L : Type} (B : Bridge D L) (cfg : OssCfg) (oss : Oss)
    (w : World) (j : JsonV) (h : pyTruthy j = false) :
    update_psd_text B cfg oss w (some j) = ⟨w, ⟨400, missingBody⟩, []⟩ := by
  unfold update_psd_text
  dsimp only
  rw [if_pos h]

lemma obj_truthy_of_getKey (kvs : List (String × JsonV)) (k : String) (v : JsonV)
    (h : getKey kvs k = some v) : pyTruthy (JsonV.obj kvs) = true := by
  cases kvs with
  | nil => simp [getKey] at h
  | cons a t => rfl

lemma handler_obj_missing {D L : Type} (B : Bridge D L) (cfg : OssCfg) (oss : Oss)
    (w : World) (kvs : List (String × JsonV))
    (h : getKey kvs "psd_id" = none ∨ getKey kvs "updates" = none) :
    update_psd_text B cfg oss w (some (JsonV.obj kvs)) =
      ⟨w, ⟨400, missingBody⟩, []⟩ := by
  by_cases ht : pyTruthy (JsonV.obj kvs) = false
  · exact handler_falsy B cfg oss w _ ht
  · rcases h with h | h
    · simp [update_psd_text, ht, pyContains, h]
    · cases hp : getKey kvs "psd_id" with
      | none => simp [update_psd_text, ht, pyContains, hp]
      | some pv => simp [update_psd_text, ht, pyContains, hp, h]

lemma handler_obj_notlist {D L : Type} (B : Bridge D L) (cfg : OssCfg) (oss : Oss)
    (w : World) (kvs : List (String × JsonV)) (pv uv : JsonV)
    (hp : getKey kvs "psd_id" = some pv) (hu : getKey kvs "updates" = some uv)
    (hnl : ∀ xs, ¬ uv = JsonV.arr xs) :
    update_psd_text B cfg oss w (some (JsonV.obj kvs)) =
      ⟨w, ⟨400, notListBody⟩, []⟩ := by
  have ht : pyTruthy (JsonV.obj kvs) = true := obj_truthy_of_getKey kvs _ _ hp
  simp [update_psd_text, ht, pyContains, pyGetItem, hp, hu, hnl]

/-- Counterexample to C9: the truthy non-object JSON body true lacks
the psd_id key, yet the handler answers 500 (the Python membership test
raises a TypeError caught by the top-level except), not the claimed
400. -/
theorem truthy_nonobject_body_500_cex :
    (update_psd_text cB cfg0 ossOk w0 (some (JsonV.bool true))).resp.status = 500 ∧
    ¬ (update_psd_text cB cfg0 ossOk w0 (some (JsonV.bool true))).resp.status = 400 := by
  refine ⟨rfl, fun h => ?_⟩
  have h5 : (update_psd_text cB cfg0 ossOk w0 (some (JsonV.bool true))).resp.status = 500 := rfl
  omega

/-- C9 amended: the handler validates fail-fast before invoking the
Processor, for bodies that are absent, falsy, or JSON objects: an
absent or falsy body, or an object lacking the psd_id or updates key,
yields 400 with error Missing psd_id or updates in request; an object
whose updates value is not a list yields 400; an object whose psd file
does not exist yields 404; in each case the trace shows the Processor
was never called.  (A truthy non-object body instead yields 500 from a
TypeError.) -/
theorem validation_fail_fast {D L : Type} (B : Bridge D L) (cfg : OssCfg) (oss : Oss)
    (w : World) :
    (update_psd_text B cfg oss w none = ⟨w, ⟨400, missingBody⟩, []⟩) ∧
    (∀ j, pyTruthy j = false →
      update_psd_text B cfg oss w (some j) = ⟨w, ⟨400, missingBody⟩, []⟩) ∧
    (∀ kvs, getKey kvs "psd_id" = none ∨ getKey kvs "updates" = none →
      update_psd_text B cfg oss w (some (JsonV.obj kvs)) =
        ⟨w, ⟨400, missingBody⟩, []⟩) ∧
    (∀ kvs pv uv, getKey kvs "psd_id" = some pv → getKey kvs "updates" = some uv →
      (∀ xs, ¬ uv = JsonV.arr xs) →
      update_psd_text B cfg oss w (some (JsonV.obj kvs)) =
        ⟨w, ⟨400, notListBody⟩, []⟩) ∧
    (∀ kvs pv us, getKey kvs "psd_id" = some pv →
      getKey kvs "updates" = some (JsonV.arr us) →
      osJoin PSD_DIRECTORY (pyStr pv ++ ".psd") ∉ w.files →
      update_psd_text B cfg oss w (some (JsonV.obj kvs)) =
        ⟨w, ⟨404, errJson "PSD file not found"⟩,
          [Ev.fsExists (osJoin PSD_DIRECTORY (pyStr pv ++ ".psd"))]⟩) := by
  refine ⟨handler_none B cfg oss w, handler_falsy B cfg oss w, ?_, ?_, ?_⟩
  · intro kvs h
    exact handler_obj_missing B cfg oss w kvs h
  · intro kvs pv uv hp hu hnl
    exact handler_obj_notlist B cfg oss w kvs pv uv hp hu hnl
  · intro kvs pv us hp hu hnx
    rw [handler_obj_core B cfg oss w kvs pv us hp hu]
    exact core_404 B cfg oss w (pyStr pv) us hnx

/-- Witness for C9 amended, exercising the missing-key, non-list and
missing-file branches at concrete requests. -/
theorem validation_fail_fast_witness :
    (update_psd_text cB cfg0 ossOk w0 none = ⟨w0, ⟨400, missingBody⟩, []⟩) ∧
    (update_psd_text cB cfg0 ossOk w0 (some (JsonV.obj [("psd_id", JsonV.str "1")])) =
      ⟨w0, ⟨400, missingBody⟩, []⟩) ∧
    (update_psd_text cB cfg0 ossOk w0
        (some (JsonV.obj [("psd_id", JsonV.str "1"), ("updates", JsonV.null)])) =
      ⟨w0, ⟨400, notListBody⟩, []⟩) ∧
    (update_psd_text cB cfg0 ossOk w0
        (some (JsonV.obj [("psd_id", JsonV.str "2"), ("updates", JsonV.arr [])])) =
      ⟨w0, ⟨404, errJson "PSD file not found"⟩,
        [Ev.fsExists (osJoin PSD_DIRECTORY (pyStr (JsonV.str "2") ++ ".psd"))]⟩) := by
  refine ⟨(validation_fail_fast cB cfg0 ossOk w0).1, ?_, ?_, ?_⟩
  · exact (validation_fail_fast cB cfg0 ossOk w0).2.2.1 _ (Or.inr rfl)
  · exact (validation_fail_fast cB cfg0 ossOk w0).2.2.2.1 _ _ _ rfl rfl
      (fun xs h => JsonV.noConfusion h)
  · exact (validation_fail_fast cB cfg0 ossOk w0).2.2.2.2 _ _ _ rfl rfl (by decide)

lemma handler_status_cases {D L : Type} (B : Bridge D L) (cfg : OssCfg) (oss : Oss)
    (w : World) (data : Option JsonV) :
    (∃ pid us, update_psd_text B cfg oss w data = handlerCore B cfg oss w pid us) ∨
    (¬ (update_psd_text B cfg oss w data).resp.status = 200 ∧
      (update_psd_text B cfg oss w data).tr = []) := by
  unfold update_psd_text
  cases data with
  | none => exact Or.inr ⟨by simp, rfl⟩
  | some j =>
      dsimp only
      by_cases ht : pyTruthy j = false
      · rw [if_pos ht]
        exact Or.inr ⟨by simp, rfl⟩
      · rw [if_neg ht]
        cases hc1 : pyContains j "psd_id" with
        | error e => exact Or.inr ⟨by simp, rfl⟩
        | ok hasP =>
            dsimp only
            by_cases hhp : hasP = false
            · rw [if_pos hhp]
              exact Or.inr ⟨by simp, rfl⟩
            · rw [if_neg hhp]
              cases hc2 : pyContains j "updates" with
              | error e => exact Or.inr ⟨by simp, rfl⟩
              | ok hasU =>
                  dsimp only
                  by_cases hhu : hasU = false
                  · rw [if_pos hhu]
                    exact Or.inr ⟨by simp, rfl⟩
                  · rw [if_neg hhu]
                    cases hg1 : pyGetItem j "updates" with
                    | error e => exact Or.inr ⟨by simp, rfl⟩
                    | ok updv =>
                        dsimp only
                        cases updv with
                        | arr us =>
                            cases hg2 : pyGetItem j "psd_id" with
                            | error e => exact Or.inr ⟨by simp, rfl⟩
                            | ok pidv => exact Or.inl ⟨pyStr pidv, us, rfl⟩
                        | null => exact Or.inr ⟨by simp, rfl⟩
                        | bool b => exact Or.inr ⟨by simp, rfl⟩
                        | num n => exact Or.inr ⟨by simp, rfl⟩
                        | str s => exact Or.inr ⟨by simp, rfl⟩
                        | obj kvs => exact Or.inr ⟨by simp, rfl⟩

lemma core_200_props {D L : Type} (B : Bridge D L) (cfg : OssCfg) (oss : Oss)
    (w : World) (pid : String) (us : List JsonV)
    (h200 : (handlerCore B cfg oss w pid us).resp.status = 200) :
    (handlerCore B cfg oss w pid us).world.files =
      removeFile (process_psd_updates B w (osJoin PSD_DIRECTORY (pid ++ ".psd"))
        (osJoin PSD_DIRECTORY (pid ++ "_output.jpg")) us).world.files
        (osJoin PSD_DIRECTORY (pid ++ "_output.jpg")) ∧
    Ev.fsRemove (osJoin PSD_DIRECTORY (pid ++ "_output.jpg")) ∈
      (handlerCore B cfg oss w pid us).tr ∧
    ∀ q, Ev.saveJpg q ∈ (handlerCore B cfg oss w pid us).tr →
      q = osJoin PSD_DIRECTORY (pid ++ "_output.jpg") := by
  unfold handlerCore at h200 ⊢
  dsimp only at h200 ⊢
  by_cases hex : osJoin PSD_DIRECTORY (pid ++ ".psd") ∈ w.files
  · rw [if_pos hex] at h200 ⊢
    cases hr : (process_psd_updates B w (osJoin PSD_DIRECTORY (pid ++ ".psd"))
        (osJoin PSD_DIRECTORY (pid ++ "_output.jpg")) us).result with
    | error e =>
        rw [hr] at h200
        exact absurd h200 (by simp)
    | ok t =>
        obtain ⟨s, f, ok⟩ := t
        rw [hr] at h200
        dsimp only at h200 ⊢
        by_cases hok : ok = false
        · rw [if_pos hok] at h200
          exact absurd h200 (by simp)
        · rw [if_neg hok] at h200 ⊢
          by_cases hj : osJoin PSD_DIRECTORY (pid ++ "_output.jpg") ∈
              (process_psd_updates B w (osJoin PSD_DIRECTORY (pid ++ ".psd"))
                (osJoin PSD_DIRECTORY (pid ++ "_output.jpg")) us).world.files
          · rw [if_pos hj] at h200 ⊢
            cases hput : oss.putObject ("psd-outputs/" ++ pid ++ "_output.jpg") with
            | error e =>
                rw [hput] at h200
                exact absurd h200 (by simp)
            | ok u =>
                rw [hput] at h200
                dsimp only at h200 ⊢
                refine ⟨rfl, by simp, ?_⟩
                intro q hq
                simp at hq
                exact proc_tr_saveJpg B w _ _ us q hq
          · rw [if_neg hj] at h200
            exact absurd h200 (by simp)
  · rw [if_neg hex] at h200
    exact absurd h200 (by simp)

/-- Counterexample to C4: a request whose single update succeeds (the
JPEG is created, see the saveJpg event) but whose upload raises ends
with a 500 early exit that leaves the artifact on disk: the handler
performs no cleanup on early exit. -/
theorem artifact_left_behind_cex :
    (update_psd_text cB cfg0 ossFail w0 (some body1)).resp.status = 500 ∧
    osJoin PSD_DIRECTORY "1_output.jpg" ∈
      (update_psd_text cB cfg0 ossFail w0 (some body1)).world.files ∧
    Ev.saveJpg (osJoin PSD_DIRECTORY "1_output.jpg") ∈
      (update_psd_text cB cfg0 ossFail w0 (some body1)).tr := by
  refine ⟨rfl, by decide, ?_⟩
  exact List.Mem.tail _ (List.Mem.tail _ (List.Mem.tail _ (List.Mem.tail _
    (List.Mem.tail _ (List.Mem.head _)))))

/-- C4 amended: the artifact is deleted after a successful upload: on
every execution that answers 200, the artifact that was written (the
saveJpg event) has been removed from disk and a remove event is in the
trace; but on an early exit after the artifact was created (such as an
upload failure answered with 500) no cleanup happens and the file can
remain, as the counterexample shows. -/
theorem artifact_removed_on_success {D L : Type} (B : Bridge D L) (cfg : OssCfg)
    (oss : Oss) (w : World) (data : Option JsonV) (jp : String)
    (h200 : (update_psd_text B cfg oss w data).resp.status = 200)
    (hsv : Ev.saveJpg jp ∈ (update_psd_text B cfg oss w data).tr) :
    jp ∉ (update_psd_text B cfg oss w data).world.files ∧
    Ev.fsRemove jp ∈ (update_psd_text B cfg oss w data).tr := by
  rcases handler_status_cases B cfg oss w data with ⟨pid, us, hq⟩ | ⟨hne, _⟩
  · rw [hq] at h200 hsv ⊢
    obtain ⟨hw, hrm, hunique⟩ := core_200_props B cfg oss w pid us h200
    have hjp : jp = osJoin PSD_DIRECTORY (pid ++ "_output.jpg") := hunique jp hsv
    subst hjp
    refine ⟨?_, hrm⟩
    rw [hw]
    simp [removeFile, List.mem_filter]
  · exact absurd h200 hne

/-- Witness for C4 amended at a concrete successful request. -/
theorem artifact_removed_on_success_witness :
    osJoin PSD_DIRECTORY ("1" ++ "_output.jpg") ∉
      (update_psd_text cB cfg0 ossOk w0 (some body1)).world.files ∧
    Ev.fsRemove (osJoin PSD_DIRECTORY ("1" ++ "_output.jpg")) ∈
      (update_psd_text cB cfg0 ossOk w0 (some body1)).tr := by
  refine artifact_removed_on_success cB cfg0 ossOk w0 (some body1) _ rfl ?_
  exact List.Mem.tail _ (List.Mem.tail _ (List.Mem.tail _ (List.Mem.tail _
    (List.Mem.tail _ (List.Mem.head _)))))

end PsdServer
